import Mathlib

/-
Verification development for the Nimble repository (hadoop_nimble):
a shallow embedding of the coordinator connection store and fan-out
engine (src/coordinator/src/network.rs) and of the endorser RPC
service handlers (src/Nimble/src/endorser.rs), together with the
endorser error taxonomy (src/endorser/src/errors.rs).

Modelling conventions:
- byte strings are `List Nat` (each element a byte value);
- external effects (endpoint parsing, the transport RPC, public-key
  parsing) are modelled by an explicit environment record holding the
  outcome of each external step, exactly as the code branches on them;
- a tokio spawned task is issued eagerly and is not cancelled when its
  JoinHandle is dropped, so the embedding of a fan-out verb returns,
  next to its result, the list of endorser keys whose request task was
  spawned before the verb returned;
- Rust panics (expect / unwrap on an Err) are a distinguished handler
  outcome, separate from returning a transport status to the caller;
- code of the repository that is not among the given source files (the
  endorser Store, the ledger crate Receipt) is modelled from the spec;
  each such definition says so in its doc comment.
-/

/-- Error kinds of the coordinator (src/coordinator/src/errors.rs is not in
the sources; the variants are those used by network.rs and listed in the
spec error taxonomy). -/
inductive CoordinatorError where
  | CannotResolveHostName
  | FailedToConnectToEndorser
  | UnableToRetrievePublicKey
  | InvalidEndorserPublicKey
  | FailedToAcquireReadLock
  | FailedToAcquireWriteLock
  | FailedToInitializeEndorser
  | FailedToCreateLedger
  | FailedToAppendLedger
  | FailedToReadLedger
  | FailedToAppendViewLedger
  | FailedToReadViewLedger
  deriving Repr, DecidableEq

/-- Error kinds of the endorser, from src/endorser/src/errors.rs. -/
inductive EndorserError where
  | InvalidLedgerName
  | LedgerExists
  | LedgerHeightOverflow
  | NotInitialized
  | AlreadyInitialized
  | InvalidTailHeight
  | OutOfOrderAppend
  | IsLocked
  deriving Repr, DecidableEq

/-- A tonic transport status returned by a handler to its caller. -/
inductive Status where
  | aborted : String → Status
  deriving Repr, DecidableEq

/-- The response of the get_public_key RPC as the coordinator decodes it
(network.rs line 57 destructures GetPublicKeyResp \x7b pk \x7d: the
response carries only the public key bytes, no signature field). -/
structure GetPublicKeyResp where
  pk : List Nat
  deriving Repr, DecidableEq

/-- Outcomes of the external steps of connect_endorser, in the order the
code takes them: whether Endpoint::from_shared succeeds on the hostname,
the result of the get_public_key RPC (none is a transport error), whether
PublicKey::from_bytes succeeds on the returned bytes, and whether the
self-signature of the endorser over its public key would verify (the spec
posits such a verification; the code never consults this). -/
structure ConnectEnv where
  endpointOk : Bool
  rpcResult : Option GetPublicKeyResp
  pkParseOk : Bool
  selfSigVerifies : Bool
  deriving Repr, DecidableEq

/-- The connection map keyed by endorser public key; the stub values are
irrelevant to the verified properties, so the map is carried as its list
of keys in iteration order. -/
abbrev ConnMap : Type := List (List Nat)

/-- HashMap::insert keyed by public key: an absent key is added (at the
end of the iteration order in this list model), a present key keeps the
map unchanged up to its key set. -/
def insertKey (pk : List Nat) (m : ConnMap) : ConnMap :=
  if pk ∈ m then m else m ++ [pk]

/-- ConnectionStore::connect_endorser (network.rs lines 43 to 72): parse
the hostname into an endpoint, connect lazily, issue get_public_key,
parse the returned bytes as a public key, and insert the key into the
connection map; each failing step returns its coordinator error and
leaves the map unchanged. Returns the result paired with the resulting
connection map. -/
def connect_endorser (store : ConnMap) (env : ConnectEnv) :
    Except CoordinatorError (List Nat) × ConnMap :=
  if env.endpointOk = false then (Except.error CoordinatorError.CannotResolveHostName, store)
  else
    match env.rpcResult with
    | none => (Except.error CoordinatorError.FailedToConnectToEndorser, store)
    | some resp =>
      if env.pkParseOk = false then (Except.error CoordinatorError.UnableToRetrievePublicKey, store)
      else (Except.ok resp.pk, insertKey resp.pk store)

/-- The outcome of one spawned fan-out task: the join failed, the endorser
returned a non-success status, or it returned a signature. -/
inductive TaskOutcome where
  | joinErr : TaskOutcome
  | respErr : TaskOutcome
  | ok : List Nat → TaskOutcome
  deriving Repr, DecidableEq

/-- True when the task did not produce a signature. -/
def TaskOutcome.isFailure : TaskOutcome → Bool
  | TaskOutcome.ok _ => false
  | _ => true

/-- Modelled from the spec: the ledger crate Receipt (not among the given
sources) is an ordered sequence of (public key, signature) pairs, and
Receipt::from_bytes builds one from the collected byte pairs. -/
abbrev Receipt : Type := List (List Nat × List Nat)

/-- Modelled from the spec: Receipt::from_bytes keeps the collected
(public key, signature) pairs in order. -/
def Receipt.from_bytes (l : List (List Nat × List Nat)) : Receipt := l

/-- The spawn loop of initialize_state and append_view_ledger (network.rs
lines 92 to 118 and 292 to 312): walk the caller-supplied endorser list;
for a key missing from the connection map stop with
InvalidEndorserPublicKey; otherwise spawn the request task for that key
and continue. Returns the keys whose task was spawned and the error, if
any. -/
def spawnLoop (connMap : ConnMap) : List (List Nat) → List (List Nat) →
    List (List Nat) × Option CoordinatorError
  | [], jobs => (jobs, none)
  | pk :: rest, jobs =>
    if pk ∈ connMap then spawnLoop connMap rest (jobs ++ [pk])
    else (jobs, some CoordinatorError.InvalidEndorserPublicKey)

/-- The await loop shared by every fan-out verb (for example network.rs
lines 166 to 183): await each job in spawn order; push (pk, signature) on
success; on a join error or an endorser-returned error return the verb
specific error, discarding the signatures received so far. -/
def awaitLoop (verbErr : CoordinatorError) (acc : List (List Nat × List Nat)) :
    List (List Nat × TaskOutcome) → Except CoordinatorError (List (List Nat × List Nat))
  | [] => Except.ok acc
  | (pk, TaskOutcome.ok sig) :: rest => awaitLoop verbErr (acc ++ [(pk, sig)]) rest
  | (_, TaskOutcome.joinErr) :: _ => Except.error verbErr
  | (_, TaskOutcome.respErr) :: _ => Except.error verbErr

/-- The shape shared by create_ledger, append_ledger, read_ledger_tail and
read_view_ledger_tail (network.rs lines 144 to 184, 186 to 235, 237 to 283,
339 to 382): spawn one task per entry of the connection map snapshot, await
them in spawn order, and assemble the receipt; the request payload does not
influence this control flow, so the response of the task spawned for a key
is given by the outcomes function. -/
def fanOutAll (connMap : ConnMap) (out : List Nat → TaskOutcome)
    (verbErr : CoordinatorError) : Except CoordinatorError Receipt :=
  match awaitLoop verbErr [] (connMap.map (fun pk => (pk, out pk))) with
  | Except.ok r => Except.ok (Receipt.from_bytes r)
  | Except.error e => Except.error e

/-- ConnectionStore::create_ledger (network.rs lines 144 to 184). -/
def create_ledger (connMap : ConnMap) (out : List Nat → TaskOutcome) :
    Except CoordinatorError Receipt :=
  fanOutAll connMap out CoordinatorError.FailedToCreateLedger

/-- ConnectionStore::append_ledger (network.rs lines 186 to 235). -/
def append_ledger (connMap : ConnMap) (out : List Nat → TaskOutcome) :
    Except CoordinatorError Receipt :=
  fanOutAll connMap out CoordinatorError.FailedToAppendLedger

/-- ConnectionStore::read_ledger_tail (network.rs lines 237 to 283). -/
def read_ledger_tail (connMap : ConnMap) (out : List Nat → TaskOutcome) :
    Except CoordinatorError Receipt :=
  fanOutAll connMap out CoordinatorError.FailedToReadLedger

/-- ConnectionStore::read_view_ledger_tail (network.rs lines 339 to 382). -/
def read_view_ledger_tail (connMap : ConnMap) (out : List Nat → TaskOutcome) :
    Except CoordinatorError Receipt :=
  fanOutAll connMap out CoordinatorError.FailedToReadViewLedger

/-- The shape shared by initialize_state and append_view_ledger, which take
a caller-supplied endorser list: run the spawn loop; on a missing key
return its error (the tasks already spawned keep running); otherwise await
the spawned tasks in order. The second component is the list of keys whose
request task was spawned before the verb returned. -/
def fanOutListed (connMap : ConnMap) (endorsers : List (List Nat))
    (out : List Nat → TaskOutcome) (verbErr : CoordinatorError) :
    Except CoordinatorError Receipt × List (List Nat) :=
  match spawnLoop connMap endorsers [] with
  | (jobs, some e) => (Except.error e, jobs)
  | (jobs, none) =>
    match awaitLoop verbErr [] (jobs.map (fun pk => (pk, out pk))) with
    | Except.ok r => (Except.ok (Receipt.from_bytes r), jobs)
    | Except.error e => (Except.error e, jobs)

/-- ConnectionStore::initialize_state (network.rs lines 74 to 142); the
serialized payload (ledger tail map, view tail, block hash, conditional
tail) does not influence the verified control flow. -/
def initialize_state (connMap : ConnMap) (endorsers : List (List Nat))
    (out : List Nat → TaskOutcome) :
    Except CoordinatorError Receipt × List (List Nat) :=
  fanOutListed connMap endorsers out CoordinatorError.FailedToInitializeEndorser

/-- ConnectionStore::append_view_ledger (network.rs lines 285 to 336). -/
def append_view_ledger (connMap : ConnMap) (endorsers : List (List Nat))
    (out : List Nat → TaskOutcome) :
    Except CoordinatorError Receipt × List (List Nat) :=
  fanOutListed connMap endorsers out CoordinatorError.FailedToAppendViewLedger

/-- Big-endian encoding of a u64 value, as Rust u64::to_be_bytes: eight
bytes, most significant first; only the low 64 bits of the argument
matter, exactly as for a wrapped machine integer. -/
def be64 (n : Nat) : List Nat :=
  [n / 2 ^ 56 % 256, n / 2 ^ 48 % 256, n / 2 ^ 40 % 256, n / 2 ^ 32 % 256,
   n / 2 ^ 24 % 256, n / 2 ^ 16 % 256, n / 2 ^ 8 % 256, n % 256]

/-- The 32-byte zero digest. -/
def zeroDigest : List Nat := List.replicate 32 0

/-- Modelled from the spec: the endorser Store (crate endorser_state, not
among the given sources) maps each 32-byte handle to its (tail, height)
pair and carries the process-wide lock flag; the signing key is passed to
each operation as the Sign function. -/
structure Store where
  ledgers : List (List Nat × (List Nat × Nat))
  locked : Bool
  deriving Repr, DecidableEq

/-- Replace the (tail, height) pair stored under a handle. -/
def setTail (handle tail : List Nat) (h : Nat) :
    List (List Nat × (List Nat × Nat)) → List (List Nat × (List Nat × Nat))
  | [] => []
  | (k, v) :: rest =>
    if k = handle then (k, (tail, h)) :: rest else (k, v) :: setTail handle tail h rest

/-- Modelled from the spec: Store::create_new_ledger_in_endorser_state —
legal only if the handle is absent and the store unlocked; inserts
(handle, (tail, height)) and returns Sign (tail concat handle concat
height in big-endian); fails with LedgerExists or IsLocked. The tail and
height are the ones the service handler computed. -/
def create_new_ledger_in_endorser_state (Sign : List Nat → List Nat) (st : Store)
    (handle tail : List Nat) (height : Nat) :
    Except EndorserError (List Nat × Store) :=
  if st.locked then Except.error EndorserError.IsLocked
  else if (st.ledgers.lookup handle).isSome then Except.error EndorserError.LedgerExists
  else Except.ok (Sign (tail ++ handle ++ be64 height),
    Store.mk (st.ledgers ++ [(handle, (tail, height))]) st.locked)

/-- Modelled from the spec: Store::append_and_update_endorser_state_tail —
legal if the handle is present, the store unlocked, the conditional tail
equals the current tail (the zero digest meaning unconditional), and the
incremented height does not overflow a u64; updates the entry to the new
(tail, height) and returns (new tail, new height, Sign (new tail concat
handle concat new height in big-endian)) with the updated store. -/
def append_and_update_endorser_state_tail (H Sign : List Nat → List Nat) (st : Store)
    (handle blockHash condTail : List Nat) :
    Except EndorserError (List Nat × Nat × List Nat × Store) :=
  if st.locked then Except.error EndorserError.IsLocked
  else
    match st.ledgers.lookup handle with
    | none => Except.error EndorserError.InvalidLedgerName
    | some (tail, height) =>
      if condTail ≠ zeroDigest ∧ condTail ≠ tail then
        Except.error EndorserError.InvalidTailHeight
      else if height = 2 ^ 64 - 1 then Except.error EndorserError.LedgerHeightOverflow
      else
        Except.ok (H (tail ++ blockHash ++ be64 (height + 1)), height + 1,
          Sign (H (tail ++ blockHash ++ be64 (height + 1)) ++ handle ++ be64 (height + 1)),
          Store.mk (setTail handle (H (tail ++ blockHash ++ be64 (height + 1))) (height + 1) st.ledgers) st.locked)

/-- Modelled from the spec: Store::get_latest_state_for_handle — a pure
read returning (nonce, tail, Sign (tail concat height in big-endian
concat nonce)); fails with InvalidLedgerName when the handle is absent. -/
def get_latest_state_for_handle (Sign : List Nat → List Nat) (st : Store)
    (handle nonce : List Nat) :
    Except EndorserError (List Nat × List Nat × List Nat) :=
  match st.ledgers.lookup handle with
  | none => Except.error EndorserError.InvalidLedgerName
  | some (tail, height) => Except.ok (nonce, tail, Sign (tail ++ be64 height ++ nonce))

/-- What a service handler does from the point of view of its RPC caller:
return a response, return a transport status, or panic (an expect or an
unwrap of an Err terminates the handler without producing a response). -/
inductive HandlerOutcome (α : Type) where
  | ok : α → HandlerOutcome α
  | err : Status → HandlerOutcome α
  | panic : String → HandlerOutcome α
  deriving Repr, DecidableEq

/-- True when the outcome is a returned transport error status. -/
def HandlerOutcome.isErrStatus {α : Type} : HandlerOutcome α → Bool
  | HandlerOutcome.err _ => true
  | _ => false

/-- EndorserServiceState::new_ledger (endorser.rs lines 56 to 86): build
the message as the 32-byte zero entry, then the handle, then the
big-endian bytes of height 0; hash it into the genesis tail; call the
store create operation; the expect call turns a store error into a panic
with the literal message, not into a response. -/
def new_ledger (H Sign : List Nat → List Nat) (st : Store) (handle : List Nat) :
    HandlerOutcome (List Nat) × Store :=
  let message : List Nat := List.replicate 32 0 ++ handle ++ be64 0
  let tail_hash := H message
  match create_new_ledger_in_endorser_state Sign st handle tail_hash 0 with
  | Except.ok (sig, st2) => (HandlerOutcome.ok sig, st2)
  | Except.error _ =>
    (HandlerOutcome.panic "Unable to get the signature on genesis handle", st)

/-- EndorserServiceState::append_to_ledger (endorser.rs lines 88 to 115):
call the store append; on success return (tail, height, signature); on any
store error return the aborted status with the fixed string
"Failed to Append". -/
def append_to_ledger (H Sign : List Nat → List Nat) (st : Store)
    (handle blockHash condTail : List Nat) :
    HandlerOutcome (List Nat × Nat × List Nat) × Store :=
  match append_and_update_endorser_state_tail H Sign st handle blockHash condTail with
  | Except.ok (tail, height, sig, st2) => (HandlerOutcome.ok (tail, height, sig), st2)
  | Except.error _ => (HandlerOutcome.err (Status.aborted "Failed to Append"), st)

/-- EndorserServiceState::read_latest (endorser.rs lines 117 to 132): a
read under the read lock; the unwrap call turns a store error into a
panic, not into a response; the store is never modified. -/
def read_latest (Sign : List Nat → List Nat) (st : Store) (handle nonce : List Nat) :
    HandlerOutcome (List Nat × List Nat × List Nat) × Store :=
  match get_latest_state_for_handle Sign st handle nonce with
  | Except.ok r => (HandlerOutcome.ok r, st)
  | Except.error _ => (HandlerOutcome.panic "called unwrap on an Err value", st)

/-- EndorserServiceState::get_endorser_public_key (endorser.rs lines 34 to
54), parametrized by the result of the store call
get_endorser_key_information (crate endorser_state, not among the given
sources): when that result is an error the handler runs unwrap on a fresh
Err value, which panics; otherwise it returns the (public key, self
signature) pair; no branch returns an Err response. -/
def get_endorser_public_key (keyInfo : Except EndorserError (List Nat × List Nat)) :
    HandlerOutcome (List Nat × List Nat) :=
  match keyInfo with
  | Except.error _ => HandlerOutcome.panic "called unwrap on an Err value"
  | Except.ok info => HandlerOutcome.ok info

/-- If some awaited task failed, the await loop returns the verb error,
whatever signatures were already collected. -/
theorem awaitLoop_fails (e : CoordinatorError) :
    ∀ (l : List (List Nat × TaskOutcome)) (acc : List (List Nat × List Nat))
      (x : List Nat × TaskOutcome), x ∈ l → x.2.isFailure = true →
      awaitLoop e acc l = Except.error e := by
  intro l
  induction l with
  | nil => intro acc x hx _; cases hx
  | cons y rest ih =>
    intro acc x hx hfail
    obtain ⟨pk, o⟩ := y
    cases o with
    | ok sig =>
      rcases List.mem_cons.mp hx with h | h
      · subst h; cases hfail
      · exact ih (acc ++ [(pk, sig)]) x h hfail
    | joinErr => rfl
    | respErr => rfl

/-- When the await loop succeeds, the keys of the collected pairs are the
accumulated keys followed by the keys of the awaited jobs, in order. -/
theorem awaitLoop_ok_keys (e : CoordinatorError) :
    ∀ (l : List (List Nat × TaskOutcome)) (acc r : List (List Nat × List Nat)),
      awaitLoop e acc l = Except.ok r →
      r.map Prod.fst = acc.map Prod.fst ++ l.map Prod.fst := by
  intro l
  induction l with
  | nil =>
    intro acc r h
    simp only [awaitLoop] at h
    cases h
    simp
  | cons y rest ih =>
    intro acc r h
    obtain ⟨pk, o⟩ := y
    cases o with
    | ok sig =>
      have h2 := ih (acc ++ [(pk, sig)]) r h
      simpa [List.map_append, List.append_assoc] using h2
    | joinErr => cases h
    | respErr => cases h

/-- When every listed key is in the connection map, the spawn loop spawns
one task per key, in list order, and reports no error. -/
theorem spawnLoop_all_mem (cm : ConnMap) :
    ∀ (es jobs : List (List Nat)), (∀ q ∈ es, q ∈ cm) →
      spawnLoop cm es jobs = (jobs ++ es, none) := by
  intro es
  induction es with
  | nil => intro jobs _; simp [spawnLoop]
  | cons pk rest ih =>
    intro jobs hall
    have hpk : pk ∈ cm := hall pk (List.mem_cons_self pk rest)
    have hrest : ∀ q ∈ rest, q ∈ cm := fun q hq => hall q (List.mem_cons_of_mem pk hq)
    simp only [spawnLoop, if_pos hpk]
    rw [ih (jobs ++ [pk]) hrest]
    simp

/-- If the spawn loop reports no error, it spawned one task per listed
key. -/
theorem spawnLoop_none (cm : ConnMap) :
    ∀ (es jobs0 jobs : List (List Nat)),
      spawnLoop cm es jobs0 = (jobs, none) → jobs = jobs0 ++ es := by
  intro es
  induction es with
  | nil =>
    intro jobs0 jobs h
    simp only [spawnLoop] at h
    cases h
    simp
  | cons pk rest ih =>
    intro jobs0 jobs h
    by_cases hpk : pk ∈ cm
    · simp only [spawnLoop, if_pos hpk] at h
      have := ih (jobs0 ++ [pk]) jobs h
      simpa [List.append_assoc] using this
    · simp only [spawnLoop, if_neg hpk] at h
      cases h

/-- When some listed key is missing from the connection map, the spawn
loop stops with InvalidEndorserPublicKey after having spawned one task per
listed key up to (not including) the first missing one. -/
theorem spawnLoop_missing (cm : ConnMap) :
    ∀ (es jobs : List (List Nat)), (∃ q ∈ es, q ∉ cm) →
      spawnLoop cm es jobs =
        (jobs ++ es.takeWhile (fun q => decide (q ∈ cm)),
          some CoordinatorError.InvalidEndorserPublicKey) := by
  intro es
  induction es with
  | nil => intro jobs h; simp at h
  | cons pk rest ih =>
    intro jobs h
    by_cases hpk : pk ∈ cm
    · have hrest : ∃ q ∈ rest, q ∉ cm := by
        rcases h with ⟨q, hq, hqcm⟩
        rcases List.mem_cons.mp hq with rfl | hq2
        · exact absurd hpk hqcm
        · exact ⟨q, hq2, hqcm⟩
      simp only [spawnLoop, if_pos hpk]
      rw [ih (jobs ++ [pk]) hrest]
      simp [List.takeWhile_cons, hpk, List.append_assoc]
    · simp only [spawnLoop, if_neg hpk]
      simp [List.takeWhile_cons, hpk]

/-- The keys of the job list built from a key list are that key list. -/
theorem map_fst_pair (out : List Nat → TaskOutcome) (l : List (List Nat)) :
    (l.map (fun pk => (pk, out pk))).map Prod.fst = l := by
  induction l with
  | nil => rfl
  | cons a t ih => simp only [List.map_cons, ih]

/-- When a fan-out over the whole connection map succeeds, the receipt has
one pair per map entry, keyed in snapshot order. -/
theorem fanOutAll_ok_keys (cm : ConnMap) (out : List Nat → TaskOutcome)
    (e : CoordinatorError) (r : Receipt) :
    fanOutAll cm out e = Except.ok r → r.map Prod.fst = cm := by
  intro h
  unfold fanOutAll at h
  split at h
  · rename_i r2 ha
    cases h
    have h2 := awaitLoop_ok_keys e (cm.map (fun pk => (pk, out pk))) [] r2 ha
    rw [map_fst_pair out cm] at h2
    simpa [Receipt.from_bytes] using h2
  · cases h

/-- When a fan-out over a caller-supplied list succeeds, the receipt has
one pair per listed key, in list order. -/
theorem fanOutListed_ok_keys (cm : ConnMap) (es : List (List Nat))
    (out : List Nat → TaskOutcome) (e : CoordinatorError) (r : Receipt) :
    (fanOutListed cm es out e).fst = Except.ok r → r.map Prod.fst = es := by
  intro h
  unfold fanOutListed at h
  split at h
  · simp at h
  · rename_i jobs hs
    have hjobs : jobs = es := by simpa using spawnLoop_none cm es [] jobs hs
    split at h
    · rename_i r2 ha
      dsimp only at h
      cases h
      have h2 := awaitLoop_ok_keys e (jobs.map (fun pk => (pk, out pk))) [] r2 ha
      rw [map_fst_pair out jobs, hjobs] at h2
      simpa [Receipt.from_bytes] using h2
    · simp at h

/-- C1 counterexample: at a concrete connection attempt whose RPC response
public key parses but whose self-signature would NOT verify, the code
still succeeds and inserts the key: connect_endorser performs no
signature verification (the response it decodes carries no signature
field at all). -/
theorem connect_endorser_inserts_without_signature_check :
    (ConnectEnv.mk true (some (GetPublicKeyResp.mk (List.replicate 32 1))) true
        false).selfSigVerifies = false
    ∧ connect_endorser []
        (ConnectEnv.mk true (some (GetPublicKeyResp.mk (List.replicate 32 1))) true false) =
      (Except.ok (List.replicate 32 1), [List.replicate 32 1]) := by
  constructor
  · rfl
  · rfl

/-- C1 amended: connect_endorser inserts (pk, stub) whenever the hostname
parses, the get_public_key RPC succeeds and the returned bytes parse as a
public key; the self-signature verification claimed by the spec does not
happen, so the outcome is the same whatever the value of the
selfSigVerifies environment field. -/
theorem connect_endorser_insert_on_parse_only (store : ConnMap)
    (resp : GetPublicKeyResp) (sv : Bool) :
    connect_endorser store (ConnectEnv.mk true (some resp) true sv) =
      (Except.ok resp.pk, insertKey resp.pk store) := by
  rfl

/-- C9: connect_endorser returns CannotResolveHostName exactly when the
hostname does not parse into an endpoint, FailedToConnectToEndorser
exactly when the get_public_key RPC fails, UnableToRetrievePublicKey
exactly when the returned bytes do not parse as a public key; and the
connection map is unchanged unless the call returns a key. -/
theorem connect_endorser_error_characterization (store : ConnMap) (env : ConnectEnv) :
    ((connect_endorser store env).fst =
        Except.error CoordinatorError.CannotResolveHostName ↔ env.endpointOk = false)
    ∧ ((connect_endorser store env).fst =
        Except.error CoordinatorError.FailedToConnectToEndorser ↔
        (env.endpointOk = true ∧ env.rpcResult = none))
    ∧ ((connect_endorser store env).fst =
        Except.error CoordinatorError.UnableToRetrievePublicKey ↔
        (env.endpointOk = true ∧ env.rpcResult.isSome = true ∧ env.pkParseOk = false))
    ∧ ((connect_endorser store env).snd = store
        ∨ ∃ pk, (connect_endorser store env).fst = Except.ok pk) := by
  obtain ⟨eo, rr, ppo, sv⟩ := env
  cases eo <;> rcases rr with _ | resp <;> cases ppo <;>
    simp [connect_endorser, insertKey]

/-- C9 witness: a concrete unparseable hostname yields
CannotResolveHostName. -/
theorem connect_endorser_error_characterization_witness :
    (connect_endorser [] (ConnectEnv.mk false none true true)).fst =
      Except.error CoordinatorError.CannotResolveHostName :=
  (connect_endorser_error_characterization [] (ConnectEnv.mk false none true true)).1.mpr rfl

/-- C2 counterexample: with connection map holding only key [1] and the
caller-supplied list [[1], [2]], both initialize_state and
append_view_ledger return InvalidEndorserPublicKey, but the request task
for the known key [1], listed before the unknown key [2], was already
spawned: the issued-request list is [[1]], not empty. -/
theorem initialize_state_spawns_before_error :
    initialize_state [[1]] [[1], [2]] (fun _ => TaskOutcome.ok []) =
      (Except.error CoordinatorError.InvalidEndorserPublicKey, [[1]])
    ∧ append_view_ledger [[1]] [[1], [2]] (fun _ => TaskOutcome.ok []) =
      (Except.error CoordinatorError.InvalidEndorserPublicKey, [[1]])
    ∧ ([[1]] : List (List Nat)) ≠ [] := by
  refine ⟨rfl, rfl, by simp⟩

/-- C2 amended: when some caller-listed key is not in the connection map,
initialize_state and append_view_ledger return InvalidEndorserPublicKey
without awaiting any task, but request tasks have already been spawned
(hence requests issued) for exactly the listed keys scanned before the
first unknown one; keys from the first unknown one onward get no
request. -/
theorem unknown_endorser_key_spawn_behavior (cm : ConnMap) (es : List (List Nat))
    (out : List Nat → TaskOutcome) (hq : ∃ q ∈ es, q ∉ cm) :
    initialize_state cm es out =
      (Except.error CoordinatorError.InvalidEndorserPublicKey,
        es.takeWhile (fun q => decide (q ∈ cm)))
    ∧ append_view_ledger cm es out =
      (Except.error CoordinatorError.InvalidEndorserPublicKey,
        es.takeWhile (fun q => decide (q ∈ cm))) := by
  have hs := spawnLoop_missing cm es [] hq
  constructor
  · unfold initialize_state fanOutListed
    rw [hs]
    simp
  · unfold append_view_ledger fanOutListed
    rw [hs]
    simp

/-- C2 amended witness: the concrete instance of the amended statement at
connection map [[1]] and list [[1], [2]]. -/
theorem unknown_endorser_key_spawn_behavior_witness :
    initialize_state [[1]] [[1], [2]] (fun _ => TaskOutcome.joinErr) =
      (Except.error CoordinatorError.InvalidEndorserPublicKey,
        List.takeWhile (fun q => decide (q ∈ ([[1]] : ConnMap))) [[1], [2]]) :=
  (unknown_endorser_key_spawn_behavior [[1]] [[1], [2]] (fun _ => TaskOutcome.joinErr)
    ⟨[2], by decide, by decide⟩).1

/-- C3: if the task spawned for some endorser in the snapshot fails, by a
join (transport) error or by an endorser-returned error, the verb returns
its verb-specific coordinator error instead of a partial receipt:
FailedToCreateLedger, FailedToAppendLedger, FailedToReadLedger,
FailedToReadViewLedger for the verbs over the whole connection map, and
FailedToInitializeEndorser, FailedToAppendViewLedger for the verbs over a
caller-supplied list all of whose keys are known. -/
theorem fanout_all_or_nothing (cm : ConnMap) (out : List Nat → TaskOutcome)
    (pk : List Nat) (hmem : pk ∈ cm) (hfail : (out pk).isFailure = true) :
    create_ledger cm out = Except.error CoordinatorError.FailedToCreateLedger
    ∧ append_ledger cm out = Except.error CoordinatorError.FailedToAppendLedger
    ∧ read_ledger_tail cm out = Except.error CoordinatorError.FailedToReadLedger
    ∧ read_view_ledger_tail cm out = Except.error CoordinatorError.FailedToReadViewLedger
    ∧ ∀ es : List (List Nat), (∀ q ∈ es, q ∈ cm) → pk ∈ es →
        (initialize_state cm es out).fst =
          Except.error CoordinatorError.FailedToInitializeEndorser
        ∧ (append_view_ledger cm es out).fst =
          Except.error CoordinatorError.FailedToAppendViewLedger := by
  have key : ∀ (e : CoordinatorError) (l : List (List Nat)), pk ∈ l →
      awaitLoop e [] (l.map (fun q => (q, out q))) = Except.error e := by
    intro e l hl
    exact awaitLoop_fails e _ [] (pk, out pk) (List.mem_map_of_mem _ hl) hfail
  have all : ∀ e : CoordinatorError, fanOutAll cm out e = Except.error e := by
    intro e
    unfold fanOutAll
    rw [key e cm hmem]
  have listed : ∀ (e : CoordinatorError) (es : List (List Nat)),
      (∀ q ∈ es, q ∈ cm) → pk ∈ es →
      fanOutListed cm es out e = (Except.error e, es) := by
    intro e es hsub hpkes
    unfold fanOutListed
    rw [spawnLoop_all_mem cm es [] hsub]
    simp only [List.nil_append]
    rw [key e es hpkes]
  refine ⟨all _, all _, all _, all _, ?_⟩
  intro es hsub hpkes
  constructor
  · unfold initialize_state
    rw [listed _ es hsub hpkes]
  · unfold append_view_ledger
    rw [listed _ es hsub hpkes]

/-- C3 witness: one endorser whose task returns an endorser error makes
every verb fail with its verb-specific error. -/
theorem fanout_all_or_nothing_witness :
    create_ledger [[1]] (fun _ => TaskOutcome.respErr) =
      Except.error CoordinatorError.FailedToCreateLedger
    ∧ (initialize_state [[1]] [[1]] (fun _ => TaskOutcome.respErr)).fst =
      Except.error CoordinatorError.FailedToInitializeEndorser := by
  have h := fanout_all_or_nothing [[1]] (fun _ => TaskOutcome.respErr) [1]
    (by decide) (by decide)
  exact ⟨h.1, (h.2.2.2.2 [[1]] (by decide) (by decide)).1⟩

/-- C6: a successful fan-out verb returns a receipt with exactly one
(public key, signature) pair per endorser of the snapshot of the target
set, keyed in the order the spawned tasks were awaited (which is the
spawn order): for the verbs over the whole connection map the receipt
keys are the snapshot, for the list verbs they are the caller-supplied
list. -/
theorem receipt_one_pair_per_endorser (cm : ConnMap) (es : List (List Nat))
    (out : List Nat → TaskOutcome) (r1 r2 r3 r4 r5 r6 : Receipt)
    (h1 : create_ledger cm out = Except.ok r1)
    (h2 : append_ledger cm out = Except.ok r2)
    (h3 : read_ledger_tail cm out = Except.ok r3)
    (h4 : read_view_ledger_tail cm out = Except.ok r4)
    (h5 : (initialize_state cm es out).fst = Except.ok r5)
    (h6 : (append_view_ledger cm es out).fst = Except.ok r6) :
    r1.map Prod.fst = cm ∧ r2.map Prod.fst = cm ∧ r3.map Prod.fst = cm
    ∧ r4.map Prod.fst = cm ∧ r5.map Prod.fst = es ∧ r6.map Prod.fst = es :=
  ⟨fanOutAll_ok_keys cm out _ r1 h1, fanOutAll_ok_keys cm out _ r2 h2,
   fanOutAll_ok_keys cm out _ r3 h3, fanOutAll_ok_keys cm out _ r4 h4,
   fanOutListed_ok_keys cm es out _ r5 h5, fanOutListed_ok_keys cm es out _ r6 h6⟩

/-- C6 witness: with one endorser returning signature [9], each verb
returns the one-pair receipt keyed by that endorser. -/
theorem receipt_one_pair_per_endorser_witness :
    ([([1], [9])] : Receipt).map Prod.fst = ([[1]] : ConnMap) :=
  (receipt_one_pair_per_endorser [[1]] [[1]] (fun _ => TaskOutcome.ok [9])
    [([1], [9])] [([1], [9])] [([1], [9])] [([1], [9])] [([1], [9])] [([1], [9])]
    rfl rfl rfl rfl rfl rfl).1

/-- C4: on an unlocked store where the handle is absent, new_ledger
computes the genesis tail as the hash of the 32-byte zero digest, then
the handle, then the big-endian 64-bit encoding of height 0, inserts the
ledger at height 0 with that tail, and returns the signature over the
genesis message; and be64 0 is the 8-byte (64-bit) zero string. -/
theorem new_ledger_genesis (H Sign : List Nat → List Nat) (st : Store)
    (handle : List Nat) (hlock : st.locked = false)
    (habs : st.ledgers.lookup handle = none) :
    (new_ledger H Sign st handle).fst =
      HandlerOutcome.ok
        (Sign (H (List.replicate 32 0 ++ handle ++ be64 0) ++ handle ++ be64 0))
    ∧ (new_ledger H Sign st handle).snd =
      Store.mk
        (st.ledgers ++ [(handle, (H (List.replicate 32 0 ++ handle ++ be64 0), 0))])
        false
    ∧ be64 0 = List.replicate 8 0 := by
  have hmk : create_new_ledger_in_endorser_state Sign st handle
      (H (List.replicate 32 0 ++ handle ++ be64 0)) 0 =
      Except.ok (Sign (H (List.replicate 32 0 ++ handle ++ be64 0) ++ handle ++ be64 0),
        Store.mk
          (st.ledgers ++ [(handle, (H (List.replicate 32 0 ++ handle ++ be64 0), 0))])
          false) := by
    unfold create_new_ledger_in_endorser_state
    rw [hlock, habs]
    simp
  refine ⟨?_, ?_, by decide⟩
  · unfold new_ledger
    dsimp only
    rw [hmk]
  · unfold new_ledger
    dsimp only
    rw [hmk]

/-- C4 witness: the genesis insertion evaluated on a fresh store, with the
identity taken for the hash and signing functions, at the handle of 32
bytes of value 5. -/
theorem new_ledger_genesis_witness :
    (new_ledger (fun l => l) (fun l => l) (Store.mk [] false)
        (List.replicate 32 5)).snd =
      Store.mk
        [(List.replicate 32 5,
          (List.replicate 32 0 ++ List.replicate 32 5 ++ be64 0, 0))] false :=
  (new_ledger_genesis (fun l => l) (fun l => l) (Store.mk [] false)
    (List.replicate 32 5) rfl rfl).2.1

/-- C5 counterexample: two different store-level failure modes of an
append, InvalidLedgerName (absent handle) and IsLocked (locked store),
surface to the caller as the identical aborted status with the fixed
string "Failed to Append": the status string does not name the endorser
error kind, so the caller cannot tell which failure mode occurred. -/
theorem append_status_does_not_name_kind :
    append_and_update_endorser_state_tail (fun l => l) (fun l => l)
        (Store.mk [] false) zeroDigest zeroDigest zeroDigest =
      Except.error EndorserError.InvalidLedgerName
    ∧ append_and_update_endorser_state_tail (fun l => l) (fun l => l)
        (Store.mk [] true) zeroDigest zeroDigest zeroDigest =
      Except.error EndorserError.IsLocked
    ∧ (append_to_ledger (fun l => l) (fun l => l) (Store.mk [] false)
        zeroDigest zeroDigest zeroDigest).fst =
      (append_to_ledger (fun l => l) (fun l => l) (Store.mk [] true)
        zeroDigest zeroDigest zeroDigest).fst
    ∧ (append_to_ledger (fun l => l) (fun l => l) (Store.mk [] false)
        zeroDigest zeroDigest zeroDigest).fst =
      HandlerOutcome.err (Status.aborted "Failed to Append") := by
  refine ⟨rfl, rfl, rfl, rfl⟩

/-- C5 amended: every failing append_to_ledger surfaces as the
transport-level aborted status with the fixed string "Failed to Append",
whatever the endorser error kind was, and leaves the store unchanged; the
status therefore does not identify which failure mode occurred. -/
theorem append_to_ledger_failure_status (H Sign : List Nat → List Nat) (st : Store)
    (handle blockHash condTail : List Nat) (e : EndorserError)
    (herr : append_and_update_endorser_state_tail H Sign st handle blockHash condTail =
      Except.error e) :
    (append_to_ledger H Sign st handle blockHash condTail).fst =
      HandlerOutcome.err (Status.aborted "Failed to Append")
    ∧ (append_to_ledger H Sign st handle blockHash condTail).snd = st := by
  unfold append_to_ledger
  rw [herr]
  exact ⟨rfl, rfl⟩

/-- C5 amended witness: the locked-store failure at concrete arguments. -/
theorem append_to_ledger_failure_status_witness :
    (append_to_ledger (fun l => l) (fun l => l) (Store.mk [] true)
        zeroDigest zeroDigest zeroDigest).fst =
      HandlerOutcome.err (Status.aborted "Failed to Append") :=
  (append_to_ledger_failure_status (fun l => l) (fun l => l) (Store.mk [] true)
    zeroDigest zeroDigest zeroDigest EndorserError.IsLocked rfl).1

/-- C7: two new_ledger calls with the same 32-byte zero handle: the store
operation of the second call fails with LedgerExists, as the spec says,
but the handler runs expect on that Err and panics with the message
"Unable to get the signature on genesis handle" instead of returning the
LedgerExists error to the caller. -/
theorem new_ledger_duplicate_panics :
    create_new_ledger_in_endorser_state (fun l => l)
        (new_ledger (fun l => l) (fun l => l) (Store.mk [] false) zeroDigest).snd
        zeroDigest (List.replicate 32 0 ++ zeroDigest ++ be64 0) 0 =
      Except.error EndorserError.LedgerExists
    ∧ (new_ledger (fun l => l) (fun l => l)
        (new_ledger (fun l => l) (fun l => l) (Store.mk [] false) zeroDigest).snd
        zeroDigest).fst =
      HandlerOutcome.panic "Unable to get the signature on genesis handle" := by
  refine ⟨rfl, rfl⟩

/-- C8 counterexample: read_latest on a store without the queried handle
panics via unwrap on the Err value instead of returning the
InvalidLedgerName error to the caller (the state is left unchanged). -/
theorem read_latest_absent_handle_panics :
    read_latest (fun l => l) (Store.mk [] false) zeroDigest (List.replicate 16 3) =
      (HandlerOutcome.panic "called unwrap on an Err value", Store.mk [] false) := by
  rfl

/-- C8 amended: read_latest is a pure read, leaving the endorser state
unchanged for every input; when the handle is absent the store lookup
fails with InvalidLedgerName but the handler unwraps the result and
panics rather than returning the error to the caller. -/
theorem read_latest_pure_and_panics (Sign : List Nat → List Nat) (st : Store)
    (handle nonce : List Nat) :
    (read_latest Sign st handle nonce).snd = st
    ∧ (st.ledgers.lookup handle = none →
        get_latest_state_for_handle Sign st handle nonce =
          Except.error EndorserError.InvalidLedgerName
        ∧ (read_latest Sign st handle nonce).fst =
          HandlerOutcome.panic "called unwrap on an Err value") := by
  constructor
  · rcases hl : st.ledgers.lookup handle with _ | ⟨tail, height⟩ <;>
      simp [read_latest, get_latest_state_for_handle, hl]
  · intro habs
    constructor
    · simp [get_latest_state_for_handle, habs]
    · simp [read_latest, get_latest_state_for_handle, habs]

/-- C8 amended witness: the concrete instance on the empty store. -/
theorem read_latest_pure_and_panics_witness :
    (read_latest (fun l => l) (Store.mk [] false) zeroDigest
        (List.replicate 16 3)).snd = Store.mk [] false
    ∧ (read_latest (fun l => l) (Store.mk [] false) zeroDigest
        (List.replicate 16 3)).fst =
      HandlerOutcome.panic "called unwrap on an Err value" := by
  have h := read_latest_pure_and_panics (fun l => l) (Store.mk [] false)
    zeroDigest (List.replicate 16 3)
  exact ⟨h.1, (h.2 rfl).2⟩

/-- C10: the get_endorser_public_key handler never returns an error
response: on a failed store result the handler unwraps a fresh Err value
and panics; every non-panicking execution returns the public key and
self-signature produced by the store. -/
theorem get_endorser_public_key_no_error_response
    (keyInfo : Except EndorserError (List Nat × List Nat))
    (info : List Nat × List Nat) (e : EndorserError) :
    (get_endorser_public_key keyInfo).isErrStatus = false
    ∧ get_endorser_public_key (Except.ok info) = HandlerOutcome.ok info
    ∧ get_endorser_public_key (Except.error e) =
      HandlerOutcome.panic "called unwrap on an Err value" := by
  refine ⟨?_, rfl, rfl⟩
  cases keyInfo <;> rfl
